import Mathlib

/-!
# Shallow embedding of the mimir repository fragment

Two components are embedded, following the Go sources:

* `cmd/cortextool/pkg/client/client.go` — a ruler HTTP client with four
  tenant-scoped operations (`CreateRuleGroup`, `DeleteRuleGroup`,
  `GetRuleGroup`, `ListRules`) sharing a request helper (`doRequest`) and a
  response classifier (`checkResponse`).
* `pkg/alertmanager/lifecycle.go` — the ring-join callback
  `OnRingInstanceRegister` of the multitenant alertmanager.

External collaborators (the HTTP transport `http.Client.Do`, the YAML codec,
the dskit ring token generator) are modelled as explicit function parameters,
so every operation is a pure function of the code's inputs plus the behavior
of its collaborators.  Effects the Go code performs on the response body
(obtaining it from the transport, closing it before returning) are recorded
in boolean fields of the operation's result record.
-/

set_option autoImplicit false

namespace Mimir

/-- Go `error` values produced or propagated by the client.  Constructors
mirror the distinct error sources in `client.go`: the two exported sentinels,
the fixed `errors.New("failed request to the ruler api")` of `checkResponse`,
transport failures from `http.Client.Do`, YAML codec failures, body read
failures, the `fmt.Errorf` of `DeleteRuleGroup`, and `errors.Wrap` which
attaches a context message to a cause. -/
inductive GoError where
  | errNoConfig
  | errResourceNotFound
  | failedRequest
  | transportErr (msg : String)
  | yamlErr (msg : String)
  | readErr (msg : String)
  | errorf (msg : String)
  | wrap (msg : String) (cause : GoError)
  deriving DecidableEq

/-- The cancellation context handed to each operation.  `http.NewRequest`
(as opposed to `http.NewRequestWithContext`) attaches `context.Background()`
to the request it builds; the model records which context a request carries. -/
inductive Ctx where
  | background
  | cancelled
  deriving DecidableEq

/-- An outbound HTTP request, with the fields the client sets: method, URL,
body payload, the context attached at construction, optional basic-auth
credentials, and the header list. -/
structure Request where
  method : String
  url : String
  body : String
  reqCtx : Ctx
  basicAuth : Option (String × String)
  headers : List (String × String)
  deriving DecidableEq

/-- An HTTP response as the client observes it: the status code and the
outcome of reading the body to the end (`ioutil.ReadAll`), which either
yields the body bytes or fails with a read error. -/
structure HttpResponse where
  statusCode : Nat
  bodyContent : Except GoError String

/-- The HTTP transport: what `r.client.Do(req)` returns for a request.
Either a transport error (connection refused, DNS, TLS, ...) or a response. -/
abbrev Transport := Request → Except GoError HttpResponse

/-- A Prometheus rule group (`rulefmt.RuleGroup`); the client treats it as
opaque apart from YAML (de)serialization, so only identity-bearing fields
are modelled. -/
structure RuleGroup where
  name : String
  rules : List String
  deriving DecidableEq

/-- A rule namespace (`store.RuleNamespace`): a named bucket of rule groups. -/
structure RuleNamespace where
  name : String
  groups : List RuleGroup
  deriving DecidableEq

/-- The YAML codec used by the client (`yaml.Marshal` / `yaml.Unmarshal`),
modelled as an explicit collaborator: serialization of a rule group, and
deserialization of a response body into a rule group or into the
namespace-to-rule-namespace map of `ListRules`. -/
structure Codec where
  marshalRuleGroup : RuleGroup → Except GoError String
  unmarshalRuleGroup : String → Except GoError RuleGroup
  unmarshalRuleSet : String → Except GoError (List (String × RuleNamespace))

/-- `client.Config`: key (optional shared secret), address (base URL of the
ruler API), id (tenant identifier). -/
structure Config where
  key : String
  address : String
  id : String
  deriving DecidableEq

/-- `client.RulerClient`: the credentials plus the parsed endpoint.
`endpoint` holds `url.Parse(cfg.Address).String()`, see `urlParseString`. -/
structure RulerClient where
  key : String
  id : String
  endpoint : String
  deriving DecidableEq

/-- Models `url.Parse` composed with `URL.String()`.  On every well-formed
absolute URL (such as the addresses appearing in the specification's
scenarios) this composition is the identity, which is what the model
returns; the parse failures of `net/url` (control characters in the address)
are outside the scope of the claims and are not modelled. -/
def urlParseString (s : String) : Except GoError String :=
  Except.ok s

/-- `client.New`: parse the address and build the client. -/
def New (cfg : Config) : Except GoError RulerClient :=
  match urlParseString cfg.address with
  | Except.error e => Except.error e
  | Except.ok endpoint => Except.ok ⟨cfg.key, cfg.id, endpoint⟩

/-- Models `http.NewRequest(method, url, bytes.NewBuffer(payload))`: a fresh
request carrying `context.Background()`, no auth and no headers.  The Go
constructor can also fail on a malformed method or URL; every call site in
`client.go` passes a fixed valid method, so that branch never fires and is
not modelled. -/
def newRequest (method url payload : String) : Request :=
  ⟨method, url, payload, Ctx.background, none, []⟩

/-- The request `doRequest` hands to the transport: built by
`http.NewRequest` from `r.endpoint.String()+path`, then `SetBasicAuth(id,
key)` when the key is non-empty, then the `X-Scope-OrgID` tenant header. -/
def buildRequest (r : RulerClient) (path method payload : String) : Request :=
  let req0 := newRequest method (r.endpoint ++ path) payload
  let req1 := if r.key ≠ "" then { req0 with basicAuth := some (r.id, r.key) } else req0
  { req1 with headers := req1.headers ++ [("X-Scope-OrgID", r.id)] }

/-- `client.checkResponse`: 2xx responses are accepted; otherwise the body is
read into a log message (the read result only feeds the log, never the
returned error, and the body is not closed here), a 404 yields the
`ErrResourceNotFound` sentinel and any other status yields the fixed
`errors.New("failed request to the ruler api")`. -/
def checkResponse (r : HttpResponse) : Option GoError :=
  if 200 ≤ r.statusCode ∧ r.statusCode ≤ 299 then
    none
  else
    if r.statusCode = 404 then
      some GoError.errResourceNotFound
    else
      some GoError.failedRequest

/-- Result of `doRequest`: the request that was handed to the transport,
whether the transport produced a response (hence a body that must eventually
be closed), and what `doRequest` returns to its caller. -/
structure DoResult where
  sent : Request
  gotResponse : Bool
  outcome : Except GoError HttpResponse

/-- `RulerClient.doRequest`: build the request, execute it through the
transport, return transport errors as they are, and classify the response
with `checkResponse`, returning its error (without closing the body) when
classification fails. -/
def doRequest (r : RulerClient) (transport : Transport) (path method payload : String) :
    DoResult :=
  let req := buildRequest r path method payload
  match transport req with
  | Except.error e => ⟨req, false, Except.error e⟩
  | Except.ok resp =>
    match checkResponse resp with
    | some e => ⟨req, true, Except.error e⟩
    | none => ⟨req, true, Except.ok resp⟩

/-- Result of one client operation: the Go return value, the request sent to
the transport (if any), whether the operation had closed the response body by
the time it returned, and whether a response body was obtained from the
transport at all. -/
structure OpResult (α : Type) where
  result : Except GoError α
  sent : Option Request
  bodyClosed : Bool
  gotBody : Bool

/-- `RulerClient.CreateRuleGroup`: marshal the group to YAML (returning the
codec error as is on failure), `POST` it to `/api/prom/rules/{namespace}`,
return `doRequest` errors as they are, then defer `res.Body.Close()` and
re-run `checkResponse` on the already-accepted response. -/
def CreateRuleGroup (r : RulerClient) (transport : Transport) (codec : Codec)
    (ctx : Ctx) (nsp : String) (rg : RuleGroup) : OpResult Unit :=
  match codec.marshalRuleGroup rg with
  | Except.error e => ⟨Except.error e, none, false, false⟩
  | Except.ok payload =>
    let d := doRequest r transport ("/api/prom/rules/" ++ nsp) "POST" payload
    match d.outcome with
    | Except.error e => ⟨Except.error e, some d.sent, false, d.gotResponse⟩
    | Except.ok res =>
      match checkResponse res with
      | some e => ⟨Except.error e, some d.sent, true, true⟩
      | none => ⟨Except.ok (), some d.sent, true, true⟩

/-- `RulerClient.DeleteRuleGroup`: `DELETE /api/prom/rules/{namespace}` (the
group name does not appear in the path), return `doRequest` errors as they
are, defer `res.Body.Close()`, re-run `checkResponse`, read the body, and
finally fail with `fmt.Errorf("error occured, %v", body)` when the status
code is odd. -/
def DeleteRuleGroup (r : RulerClient) (transport : Transport)
    (ctx : Ctx) (nsp groupName : String) : OpResult Unit :=
  let d := doRequest r transport ("/api/prom/rules/" ++ nsp) "DELETE" ""
  match d.outcome with
  | Except.error e => ⟨Except.error e, some d.sent, false, d.gotResponse⟩
  | Except.ok res =>
    match checkResponse res with
    | some e => ⟨Except.error e, some d.sent, true, true⟩
    | none =>
      match res.bodyContent with
      | Except.error e => ⟨Except.error e, some d.sent, true, true⟩
      | Except.ok body =>
        if res.statusCode % 2 > 0 then
          ⟨Except.error (GoError.errorf ("error occured, " ++ body)), some d.sent, true, true⟩
        else
          ⟨Except.ok (), some d.sent, true, true⟩

/-- `RulerClient.GetRuleGroup`: `GET /api/prom/rules/{namespace}/{groupName}`,
wrap any `doRequest` error with `errors.Wrap(err, "failed to perform
request")`, defer `res.Body.Close()`, re-run `checkResponse`, read the body
(returning read errors as they are) and unmarshal it, wrapping a decode
failure with "unable to unmarshal response". -/
def GetRuleGroup (r : RulerClient) (transport : Transport) (codec : Codec)
    (ctx : Ctx) (nsp groupName : String) : OpResult RuleGroup :=
  let d := doRequest r transport ("/api/prom/rules/" ++ nsp ++ "/" ++ groupName) "GET" ""
  match d.outcome with
  | Except.error e =>
    ⟨Except.error (GoError.wrap "failed to perform request" e), some d.sent, false, d.gotResponse⟩
  | Except.ok res =>
    match checkResponse res with
    | some e => ⟨Except.error e, some d.sent, true, true⟩
    | none =>
      match res.bodyContent with
      | Except.error e => ⟨Except.error e, some d.sent, true, true⟩
      | Except.ok body =>
        match codec.unmarshalRuleGroup body with
        | Except.error e =>
          ⟨Except.error (GoError.wrap "unable to unmarshal response" e), some d.sent, true, true⟩
        | Except.ok rg => ⟨Except.ok rg, some d.sent, true, true⟩

/-- `RulerClient.ListRules`: `GET /api/prom/rules` for the empty namespace and
`GET /api/prom/rules/{namespace}` otherwise, return `doRequest` errors as
they are, defer `res.Body.Close()`, re-run `checkResponse`, read the body and
unmarshal the namespace map, returning read and decode errors as they are. -/
def ListRules (r : RulerClient) (transport : Transport) (codec : Codec)
    (ctx : Ctx) (nsp : String) : OpResult (List (String × RuleNamespace)) :=
  let path := if nsp ≠ "" then "/api/prom/rules" ++ "/" ++ nsp else "/api/prom/rules"
  let d := doRequest r transport path "GET" ""
  match d.outcome with
  | Except.error e => ⟨Except.error e, some d.sent, false, d.gotResponse⟩
  | Except.ok res =>
    match checkResponse res with
    | some e => ⟨Except.error e, some d.sent, true, true⟩
    | none =>
      match res.bodyContent with
      | Except.error e => ⟨Except.error e, some d.sent, true, true⟩
      | Except.ok body =>
        match codec.unmarshalRuleSet body with
        | Except.error e => ⟨Except.error e, some d.sent, true, true⟩
        | Except.ok ruleSet => ⟨Except.ok ruleSet, some d.sent, true, true⟩

/-! ## Alertmanager ring lifecycle (`pkg/alertmanager/lifecycle.go`) -/

/-- `ring.InstanceState` of the dskit ring. -/
inductive InstanceState where
  | ACTIVE
  | JOINING
  | LEAVING
  | PENDING
  | LEFT
  deriving DecidableEq

/-- `ring.InstanceDesc` restricted to what the lifecycle hook consumes: the
token list returned by `GetTokens()`. -/
structure InstanceDesc where
  tokens : List Nat
  deriving DecidableEq

/-- `ring.Desc` restricted to what the lifecycle hook consumes: the map of
instance ids to instance descriptors, as an association list. -/
structure Desc where
  instances : List (String × InstanceDesc)
  deriving DecidableEq

/-- Modelled from the spec: `ring.Desc.TokensFor` is dskit code outside the
provided sources; per the spec, the descriptor query returns the tokens owned
by the given instance and the full set of tokens currently taken by any
instance, and the taken set is used as the exclusion set for generation. -/
def Desc.tokensFor (d : Desc) (instanceID : String) : List Nat × List Nat :=
  (((d.instances.filter (fun p => p.1 == instanceID)).map (fun p => p.2.tokens)).flatten,
   ((d.instances.map (fun p => p.2.tokens)).flatten))

/-- Modelled from the spec: `RingNumTokens` is a compile-time constant of the
alertmanager package defined outside the provided sources; the spec's
ring-rejoin scenario fixes it at 128. -/
def RingNumTokens : Nat := 128

/-- `MultitenantAlertmanager.OnRingInstanceRegister`.  The dskit generator
`ring.GenerateTokens` is outside the provided sources and is passed as the
parameter `gen`; per the spec it produces the requested number of fresh
tokens disjoint from the taken set, and a non-positive request produces no
tokens, so the truncated `Nat` subtraction below agrees with Go's `int`
subtraction followed by the generator's non-positive guard. -/
def OnRingInstanceRegister (gen : Nat → List Nat → List Nat) (ringDesc : Desc)
    (instanceExists : Bool) (instanceID : String) (instanceDesc : InstanceDesc) :
    InstanceState × List Nat :=
  let tokens := if instanceExists then instanceDesc.tokens else []
  let takenTokens := (ringDesc.tokensFor instanceID).2
  let newTokens := gen (RingNumTokens - tokens.length) takenTokens
  (InstanceState.JOINING, tokens ++ newTokens)

/-! ## Concrete fixtures used by witnesses and counterexamples -/

/-- A sample rule group. -/
def rgEx : RuleGroup := ⟨"g1", ["up == 0"]⟩

/-- A codec on which every (de)serialization succeeds. -/
def okCodec : Codec :=
  ⟨fun rg => Except.ok ("name: " ++ rg.name),
   fun s => Except.ok ⟨s, []⟩,
   fun _ => Except.ok []⟩

/-- A codec on which every (de)serialization fails with the same YAML error. -/
def badCodec : Codec :=
  ⟨fun _ => Except.error (GoError.yamlErr "bad"),
   fun _ => Except.error (GoError.yamlErr "bad"),
   fun _ => Except.error (GoError.yamlErr "bad")⟩

/-- The configuration of the spec's first end-to-end scenario. -/
def cfgEx : Config := ⟨"s3cr3t", "http://r.example/", "t1"⟩

/-- The client `New cfgEx` constructs. -/
def clientEx : RulerClient := ⟨"s3cr3t", "t1", "http://r.example/"⟩

/-- A 200 response with a readable body. -/
def resp200 : HttpResponse := ⟨200, Except.ok "body"⟩

/-- A 404 response with a readable body. -/
def resp404 : HttpResponse := ⟨404, Except.ok "not found"⟩

/-- A transport on which every request succeeds with status 200. -/
def t200 : Transport := fun _ => Except.ok resp200

/-- A transport on which every request yields status 404. -/
def t404 : Transport := fun _ => Except.ok resp404

/-- The request `DeleteRuleGroup` sends for `clientEx` on namespace `alerts`. -/
def reqDel : Request :=
  ⟨"DELETE", "http://r.example//api/prom/rules/alerts", "", Ctx.background,
   some ("t1", "s3cr3t"), [("X-Scope-OrgID", "t1")]⟩

/-- The request `CreateRuleGroup` sends for `clientEx` on namespace `alerts`
with `rgEx` marshalled by `okCodec`. -/
def reqC8 : Request :=
  ⟨"POST", "http://r.example//api/prom/rules/alerts", "name: g1", Ctx.background,
   some ("t1", "s3cr3t"), [("X-Scope-OrgID", "t1")]⟩

/-- A concrete token generator satisfying the generator contract on every
input whose taken set stays below 1000: it returns the requested number of
tokens, all of them at least 1000. -/
def genW : Nat → List Nat → List Nat := fun n _ => (List.range n).map (fun i => i + 1000)

/-- A ring descriptor holding the re-registering instance `am-1` with tokens
5 and 9 and a foreign instance `am-2` with tokens 100 and 200. -/
def descW : Desc := ⟨[("am-1", ⟨[5, 9]⟩), ("am-2", ⟨[100, 200]⟩)]⟩

/-! ## Helper lemmas -/

/-- Whatever the transport does, the request `doRequest` hands to it is the
one `buildRequest` constructs. -/
theorem doRequest_sent (r : RulerClient) (transport : Transport) (path method payload : String) :
    (doRequest r transport path method payload).sent = buildRequest r path method payload := by
  simp only [doRequest]
  split
  · rfl
  · split <;> rfl

/-- The request built by the client always carries the tenant header, and
carries basic auth exactly when the key is non-empty. -/
theorem buildRequest_good (r : RulerClient) (path method payload : String) :
    ("X-Scope-OrgID", r.id) ∈ (buildRequest r path method payload).headers ∧
    ((buildRequest r path method payload).basicAuth = some (r.id, r.key) ↔ r.key ≠ "") := by
  by_cases hk : r.key = "" <;> simp [buildRequest, newRequest, hk]

/-- Any request `CreateRuleGroup` reports as sent is a `buildRequest` for the
`POST` on the namespace path, with the marshalled payload. -/
theorem CreateRuleGroup_sent (r : RulerClient) (transport : Transport) (codec : Codec)
    (ctx : Ctx) (nsp : String) (rg : RuleGroup) (req : Request)
    (h : (CreateRuleGroup r transport codec ctx nsp rg).sent = some req) :
    ∃ payload, req = buildRequest r ("/api/prom/rules/" ++ nsp) "POST" payload := by
  simp only [CreateRuleGroup] at h
  split at h
  · exact Option.noConfusion h
  · next payload heq =>
    refine ⟨payload, ?_⟩
    rw [← doRequest_sent r transport ("/api/prom/rules/" ++ nsp) "POST" payload]
    repeat' split at h
    all_goals exact (Option.some.inj h).symm

/-- Any request `DeleteRuleGroup` reports as sent is the `buildRequest` for
the `DELETE` on the namespace path. -/
theorem DeleteRuleGroup_sent (r : RulerClient) (transport : Transport) (ctx : Ctx)
    (nsp g : String) (req : Request)
    (h : (DeleteRuleGroup r transport ctx nsp g).sent = some req) :
    req = buildRequest r ("/api/prom/rules/" ++ nsp) "DELETE" "" := by
  simp only [DeleteRuleGroup] at h
  rw [← doRequest_sent r transport ("/api/prom/rules/" ++ nsp) "DELETE" ""]
  repeat' split at h
  all_goals exact (Option.some.inj h).symm

/-- Any request `GetRuleGroup` reports as sent is the `buildRequest` for the
`GET` on the namespace-and-group path. -/
theorem GetRuleGroup_sent (r : RulerClient) (transport : Transport) (codec : Codec)
    (ctx : Ctx) (nsp g : String) (req : Request)
    (h : (GetRuleGroup r transport codec ctx nsp g).sent = some req) :
    req = buildRequest r ("/api/prom/rules/" ++ nsp ++ "/" ++ g) "GET" "" := by
  simp only [GetRuleGroup] at h
  rw [← doRequest_sent r transport ("/api/prom/rules/" ++ nsp ++ "/" ++ g) "GET" ""]
  repeat' split at h
  all_goals exact (Option.some.inj h).symm

/-- Any request `ListRules` reports as sent is the `buildRequest` for the
`GET` on the list path. -/
theorem ListRules_sent (r : RulerClient) (transport : Transport) (codec : Codec)
    (ctx : Ctx) (nsp : String) (req : Request)
    (h : (ListRules r transport codec ctx nsp).sent = some req) :
    req = buildRequest r
      (if nsp ≠ "" then "/api/prom/rules" ++ "/" ++ nsp else "/api/prom/rules") "GET" "" := by
  simp only [ListRules] at h
  by_cases hn : nsp ≠ ""
  · rw [if_pos hn] at h ⊢
    rw [← doRequest_sent r transport ("/api/prom/rules" ++ "/" ++ nsp) "GET" ""]
    repeat' split at h
    all_goals exact (Option.some.inj h).symm
  · rw [if_neg hn] at h ⊢
    rw [← doRequest_sent r transport "/api/prom/rules" "GET" ""]
    repeat' split at h
    all_goals exact (Option.some.inj h).symm

/-- A 2xx response passes `checkResponse`. -/
theorem checkResponse_2xx (resp : HttpResponse)
    (hlo : 200 ≤ resp.statusCode) (hhi : resp.statusCode ≤ 299) :
    checkResponse resp = none := by
  simp [checkResponse, hlo, hhi]

/-- A 404 response is classified as the `ErrResourceNotFound` sentinel. -/
theorem checkResponse_404 (resp : HttpResponse) (h404 : resp.statusCode = 404) :
    checkResponse resp = some GoError.errResourceNotFound := by
  simp [checkResponse, h404]

/-! ## Claims -/

/-- C1: every operation accepts a context but none propagates it — the
request handed to the transport always carries `context.Background()`
(because `http.NewRequest` is used and `ctx` is never referenced), so even an
already-cancelled caller context does not reach the transport and every
operation completes normally instead of returning a cancellation error. -/
theorem context_not_propagated :
    Ctx.background ≠ Ctx.cancelled ∧
    (Option.map Request.reqCtx (CreateRuleGroup clientEx t200 okCodec Ctx.cancelled "alerts" rgEx).sent
        = some Ctx.background ∧
      (CreateRuleGroup clientEx t200 okCodec Ctx.cancelled "alerts" rgEx).result = Except.ok ()) ∧
    (Option.map Request.reqCtx (DeleteRuleGroup clientEx t200 Ctx.cancelled "alerts" "g1").sent
        = some Ctx.background ∧
      (DeleteRuleGroup clientEx t200 Ctx.cancelled "alerts" "g1").result = Except.ok ()) ∧
    (Option.map Request.reqCtx (GetRuleGroup clientEx t200 okCodec Ctx.cancelled "alerts" "g1").sent
        = some Ctx.background ∧
      (GetRuleGroup clientEx t200 okCodec Ctx.cancelled "alerts" "g1").result = Except.ok ⟨"body", []⟩) ∧
    (Option.map Request.reqCtx (ListRules clientEx t200 okCodec Ctx.cancelled "alerts").sent
        = some Ctx.background ∧
      (ListRules clientEx t200 okCodec Ctx.cancelled "alerts").result = Except.ok []) :=
  ⟨by decide, ⟨rfl, rfl⟩, ⟨rfl, rfl⟩, ⟨rfl, rfl⟩, ⟨rfl, rfl⟩⟩

/-- C2 counterexample: a transport error is not returned unwrapped by every
operation — `GetRuleGroup` wraps it with the "failed to perform request"
context, and the wrapped error differs from the transport error. -/
theorem getRuleGroup_wraps_transport_error :
    (GetRuleGroup clientEx (fun _ => Except.error (GoError.transportErr "connection refused"))
        okCodec Ctx.background "alerts" "g1").result =
      Except.error (GoError.wrap "failed to perform request" (GoError.transportErr "connection refused")) ∧
    GoError.wrap "failed to perform request" (GoError.transportErr "connection refused") ≠
      GoError.transportErr "connection refused" :=
  ⟨rfl, by decide⟩

/-- C2 amended: when the transport fails with error `e`, `CreateRuleGroup`
(once serialization succeeded), `DeleteRuleGroup` and `ListRules` return `e`
unwrapped, while `GetRuleGroup` returns `e` wrapped with the "failed to
perform request" context. -/
theorem transport_error_propagation (r : RulerClient) (codec : Codec) (ctx : Ctx)
    (nsp g payload : String) (rg : RuleGroup) (e : GoError)
    (hm : codec.marshalRuleGroup rg = Except.ok payload) :
    (CreateRuleGroup r (fun _ => Except.error e) codec ctx nsp rg).result = Except.error e ∧
    (DeleteRuleGroup r (fun _ => Except.error e) ctx nsp g).result = Except.error e ∧
    (ListRules r (fun _ => Except.error e) codec ctx nsp).result = Except.error e ∧
    (GetRuleGroup r (fun _ => Except.error e) codec ctx nsp g).result =
      Except.error (GoError.wrap "failed to perform request" e) := by
  refine ⟨?_, rfl, ?_, rfl⟩
  · simp only [CreateRuleGroup, doRequest, hm]
  · simp only [ListRules, doRequest]

/-- C2 witness: the amended transport-error claim at a concrete client,
codec, rule group and connection-refused error. -/
theorem transport_error_propagation_witness :
    (CreateRuleGroup clientEx (fun _ => Except.error (GoError.transportErr "connection refused"))
        okCodec Ctx.background "alerts" rgEx).result =
      Except.error (GoError.transportErr "connection refused") ∧
    (DeleteRuleGroup clientEx (fun _ => Except.error (GoError.transportErr "connection refused"))
        Ctx.background "alerts" "g1").result =
      Except.error (GoError.transportErr "connection refused") ∧
    (ListRules clientEx (fun _ => Except.error (GoError.transportErr "connection refused"))
        okCodec Ctx.background "alerts").result =
      Except.error (GoError.transportErr "connection refused") ∧
    (GetRuleGroup clientEx (fun _ => Except.error (GoError.transportErr "connection refused"))
        okCodec Ctx.background "alerts" "g1").result =
      Except.error (GoError.wrap "failed to perform request" (GoError.transportErr "connection refused")) :=
  transport_error_propagation clientEx okCodec Ctx.background "alerts" "g1" "name: g1" rgEx
    (GoError.transportErr "connection refused") rfl

/-- C3: when the server answers 404 (or any non-2xx status), `checkResponse`
inside `doRequest` reads the body but never closes it and every operation
returns before any `res.Body.Close()` is deferred — so the body obtained from
the transport is still unclosed when the operation returns. -/
theorem body_not_closed_on_non2xx :
    ((CreateRuleGroup clientEx t404 okCodec Ctx.background "alerts" rgEx).gotBody = true ∧
      (CreateRuleGroup clientEx t404 okCodec Ctx.background "alerts" rgEx).bodyClosed = false) ∧
    ((DeleteRuleGroup clientEx t404 Ctx.background "alerts" "g1").gotBody = true ∧
      (DeleteRuleGroup clientEx t404 Ctx.background "alerts" "g1").bodyClosed = false) ∧
    ((GetRuleGroup clientEx t404 okCodec Ctx.background "alerts" "g1").gotBody = true ∧
      (GetRuleGroup clientEx t404 okCodec Ctx.background "alerts" "g1").bodyClosed = false) ∧
    ((ListRules clientEx t404 okCodec Ctx.background "alerts").gotBody = true ∧
      (ListRules clientEx t404 okCodec Ctx.background "alerts").bodyClosed = false) :=
  ⟨⟨rfl, rfl⟩, ⟨rfl, rfl⟩, ⟨rfl, rfl⟩, ⟨rfl, rfl⟩⟩

/-- C4 counterexample: a 201 response is accepted by `checkResponse`, reaches
the parity check, and makes `DeleteRuleGroup` return an error — the
`statusCode % 2 > 0` branch is reachable, not dead. -/
theorem delete_parity_fires_on_201 :
    checkResponse ⟨201, Except.ok ""⟩ = none ∧
    (DeleteRuleGroup clientEx (fun _ => Except.ok ⟨201, Except.ok ""⟩)
        Ctx.background "alerts" "g1").result =
      Except.error (GoError.errorf "error occured, ") ∧
    (Except.error (GoError.errorf "error occured, ") : Except GoError Unit) ≠ Except.ok () :=
  ⟨rfl, rfl, fun h => Except.noConfusion h⟩

/-- C4 amended: for every response that reaches the parity check (accepted as
2xx, with a readable body), the check fires exactly when the status code is
odd: `DeleteRuleGroup` fails with the `fmt.Errorf` error on odd 2xx statuses
such as 201 and succeeds on even ones. -/
theorem delete_parity_check_behavior (r : RulerClient) (ctx : Ctx) (nsp g body : String)
    (resp : HttpResponse)
    (hlo : 200 ≤ resp.statusCode) (hhi : resp.statusCode ≤ 299)
    (hbody : resp.bodyContent = Except.ok body) :
    (DeleteRuleGroup r (fun _ => Except.ok resp) ctx nsp g).result =
      if resp.statusCode % 2 > 0 then Except.error (GoError.errorf ("error occured, " ++ body))
      else Except.ok () := by
  have hcr : checkResponse resp = none := checkResponse_2xx resp hlo hhi
  simp only [DeleteRuleGroup, doRequest, hcr, hbody]
  split <;> rfl

/-- C4 witness: the amended parity-check claim evaluated at a 204 response,
on which `DeleteRuleGroup` succeeds. -/
theorem delete_parity_check_behavior_witness :
    (DeleteRuleGroup clientEx (fun _ => Except.ok ⟨204, Except.ok ""⟩)
        Ctx.background "alerts" "g1").result =
      if (204 : Nat) % 2 > 0 then Except.error (GoError.errorf ("error occured, " ++ ""))
      else Except.ok () :=
  delete_parity_check_behavior clientEx Ctx.background "alerts" "g1" "" ⟨204, Except.ok ""⟩
    (by decide) (by decide) rfl

/-- C5 counterexample: on a 404, `GetRuleGroup` does not return the
`ErrResourceNotFound` sentinel itself but the sentinel wrapped with the
"failed to perform request" context, a different error value. -/
theorem getRuleGroup_404_not_sentinel :
    (GetRuleGroup clientEx t404 okCodec Ctx.background "alerts" "gX").result =
      Except.error (GoError.wrap "failed to perform request" GoError.errResourceNotFound) ∧
    GoError.wrap "failed to perform request" GoError.errResourceNotFound ≠
      GoError.errResourceNotFound :=
  ⟨rfl, by decide⟩

/-- C5 amended: on a 404 response, `CreateRuleGroup`, `DeleteRuleGroup` and
`ListRules` return exactly the `ErrResourceNotFound` sentinel, while
`GetRuleGroup` returns the sentinel wrapped with "failed to perform
request". -/
theorem notFound_classification (r : RulerClient) (codec : Codec) (ctx : Ctx)
    (nsp g payload : String) (rg : RuleGroup) (resp : HttpResponse)
    (h404 : resp.statusCode = 404)
    (hm : codec.marshalRuleGroup rg = Except.ok payload) :
    (CreateRuleGroup r (fun _ => Except.ok resp) codec ctx nsp rg).result =
      Except.error GoError.errResourceNotFound ∧
    (DeleteRuleGroup r (fun _ => Except.ok resp) ctx nsp g).result =
      Except.error GoError.errResourceNotFound ∧
    (ListRules r (fun _ => Except.ok resp) codec ctx nsp).result =
      Except.error GoError.errResourceNotFound ∧
    (GetRuleGroup r (fun _ => Except.ok resp) codec ctx nsp g).result =
      Except.error (GoError.wrap "failed to perform request" GoError.errResourceNotFound) := by
  have hcr : checkResponse resp = some GoError.errResourceNotFound := checkResponse_404 resp h404
  refine ⟨?_, ?_, ?_, ?_⟩
  · simp only [CreateRuleGroup, doRequest, hm, hcr]
  · simp only [DeleteRuleGroup, doRequest, hcr]
  · simp only [ListRules, doRequest, hcr]
  · simp only [GetRuleGroup, doRequest, hcr]

/-- C5 witness: the amended 404-classification claim at a concrete client,
codec, rule group and 404 response. -/
theorem notFound_classification_witness :
    (CreateRuleGroup clientEx (fun _ => Except.ok resp404) okCodec Ctx.background "alerts" rgEx).result =
      Except.error GoError.errResourceNotFound ∧
    (DeleteRuleGroup clientEx (fun _ => Except.ok resp404) Ctx.background "alerts" "gX").result =
      Except.error GoError.errResourceNotFound ∧
    (ListRules clientEx (fun _ => Except.ok resp404) okCodec Ctx.background "alerts").result =
      Except.error GoError.errResourceNotFound ∧
    (GetRuleGroup clientEx (fun _ => Except.ok resp404) okCodec Ctx.background "alerts" "gX").result =
      Except.error (GoError.wrap "failed to perform request" GoError.errResourceNotFound) :=
  notFound_classification clientEx okCodec Ctx.background "alerts" "gX" "name: g1" rgEx resp404
    rfl rfl

/-- C6: for every operation and every client configuration, the request
handed to the transport carries the `X-Scope-OrgID` header equal to the
configured tenant id, and carries basic-auth credentials `(id, key)` exactly
when the configured key is non-empty. -/
theorem tenant_header_and_auth (cfg : Config) (r : RulerClient) (transport : Transport)
    (codec : Codec) (ctx : Ctx) (nsp g : String) (rg : RuleGroup) (req : Request)
    (hnew : New cfg = Except.ok r)
    (hsent : (CreateRuleGroup r transport codec ctx nsp rg).sent = some req ∨
             (DeleteRuleGroup r transport ctx nsp g).sent = some req ∨
             (GetRuleGroup r transport codec ctx nsp g).sent = some req ∨
             (ListRules r transport codec ctx nsp).sent = some req) :
    ("X-Scope-OrgID", cfg.id) ∈ req.headers ∧
    (req.basicAuth = some (cfg.id, cfg.key) ↔ cfg.key ≠ "") := by
  have hr : r = ⟨cfg.key, cfg.id, cfg.address⟩ := by
    simpa [New, urlParseString] using hnew.symm
  subst hr
  rcases hsent with h | h | h | h
  · obtain ⟨payload, hp⟩ := CreateRuleGroup_sent _ _ _ _ _ _ _ h
    rw [hp]
    exact buildRequest_good _ _ _ _
  · rw [DeleteRuleGroup_sent _ _ _ _ _ _ h]
    exact buildRequest_good _ _ _ _
  · rw [GetRuleGroup_sent _ _ _ _ _ _ _ h]
    exact buildRequest_good _ _ _ _
  · rw [ListRules_sent _ _ _ _ _ _ h]
    exact buildRequest_good _ _ _ _

/-- C6 witness: the tenant-header and auth claim at the scenario
configuration, via the request `DeleteRuleGroup` sends. -/
theorem tenant_header_and_auth_witness :
    ("X-Scope-OrgID", cfgEx.id) ∈ reqDel.headers ∧
    (reqDel.basicAuth = some (cfgEx.id, cfgEx.key) ↔ cfgEx.key ≠ "") :=
  tenant_header_and_auth cfgEx clientEx t200 okCodec Ctx.background "alerts" "g1" rgEx reqDel
    rfl (Or.inr (Or.inl rfl))

/-- C7 counterexample: a YAML serialization failure in `CreateRuleGroup` and
a YAML deserialization failure in `ListRules` are both returned bare, without
the contexts the claim states. -/
theorem codec_error_context_counterexample :
    (CreateRuleGroup clientEx t200 badCodec Ctx.background "alerts" rgEx).result =
      Except.error (GoError.yamlErr "bad") ∧
    GoError.yamlErr "bad" ≠ GoError.wrap "failed to perform request" (GoError.yamlErr "bad") ∧
    (ListRules clientEx t200 badCodec Ctx.background "alerts").result =
      Except.error (GoError.yamlErr "bad") ∧
    GoError.yamlErr "bad" ≠ GoError.wrap "unable to unmarshal response" (GoError.yamlErr "bad") :=
  ⟨rfl, by decide, rfl, by decide⟩

/-- C7 amended: `CreateRuleGroup` returns YAML serialization failures
unwrapped; `GetRuleGroup` wraps deserialization failures with the "unable to
unmarshal response" context; `ListRules` returns deserialization failures
unwrapped. -/
theorem codec_error_contexts (r : RulerClient) (codec : Codec) (ctx : Ctx)
    (nsp g body : String) (rg : RuleGroup) (e : GoError) (resp : HttpResponse)
    (hlo : 200 ≤ resp.statusCode) (hhi : resp.statusCode ≤ 299)
    (hbody : resp.bodyContent = Except.ok body) :
    (codec.marshalRuleGroup rg = Except.error e →
      (CreateRuleGroup r (fun _ => Except.ok resp) codec ctx nsp rg).result = Except.error e) ∧
    (codec.unmarshalRuleGroup body = Except.error e →
      (GetRuleGroup r (fun _ => Except.ok resp) codec ctx nsp g).result =
        Except.error (GoError.wrap "unable to unmarshal response" e)) ∧
    (codec.unmarshalRuleSet body = Except.error e →
      (ListRules r (fun _ => Except.ok resp) codec ctx nsp).result = Except.error e) := by
  have hcr : checkResponse resp = none := checkResponse_2xx resp hlo hhi
  refine ⟨fun hm => ?_, fun hu => ?_, fun hus => ?_⟩
  · simp only [CreateRuleGroup, hm]
  · simp only [GetRuleGroup, doRequest, hcr, hbody, hu]
  · simp only [ListRules, doRequest, hcr, hbody, hus]

/-- C7 witness: the amended codec-error claim at a concrete client and an
all-failing codec on a 200 response. -/
theorem codec_error_contexts_witness :
    (CreateRuleGroup clientEx (fun _ => Except.ok resp200) badCodec Ctx.background "alerts" rgEx).result =
      Except.error (GoError.yamlErr "bad") ∧
    (GetRuleGroup clientEx (fun _ => Except.ok resp200) badCodec Ctx.background "alerts" "g1").result =
      Except.error (GoError.wrap "unable to unmarshal response" (GoError.yamlErr "bad")) ∧
    (ListRules clientEx (fun _ => Except.ok resp200) badCodec Ctx.background "alerts").result =
      Except.error (GoError.yamlErr "bad") := by
  have h := codec_error_contexts clientEx badCodec Ctx.background "alerts" "g1" "body" rgEx
    (GoError.yamlErr "bad") resp200 (by decide) (by decide) rfl
  exact ⟨h.1 rfl, h.2.1 rfl, h.2.2 rfl⟩

/-- C8 counterexample: with the scenario configuration (address carrying a
trailing slash), `CreateRuleGroup("alerts", g)` sends one `POST` whose URL is
the verbatim concatenation base + path, which contains a double slash and is
not the URL the claim states. -/
theorem create_url_not_single_slash :
    New cfgEx = Except.ok clientEx ∧
    (CreateRuleGroup clientEx t200 okCodec Ctx.background "alerts" rgEx).sent = some reqC8 ∧
    reqC8.method = "POST" ∧
    reqC8.url = clientEx.endpoint ++ "/api/prom/rules/alerts" ∧
    reqC8.url ≠ "http://r.example/api/prom/rules/alerts" :=
  ⟨rfl, rfl, rfl, rfl, by decide⟩

/-- C8 amended: for the scenario configuration, `CreateRuleGroup("alerts",
g)` issues exactly one `POST` whose URL is base + path concatenated verbatim,
`http://r.example//api/prom/rules/alerts` (double slash: the trailing slash
of the address is kept). -/
theorem create_url_composition :
    (CreateRuleGroup clientEx t200 okCodec Ctx.background "alerts" rgEx).sent = some reqC8 ∧
    reqC8.method = "POST" ∧
    reqC8.url = "http://r.example//api/prom/rules/alerts" :=
  ⟨rfl, rfl, rfl⟩

/-- C9 counterexample: when the prior descriptor holds 129 tokens (more than
`RingNumTokens`), re-registration keeps them all and requests zero fresh
tokens, so the returned list has length 129, not `RingNumTokens`. -/
theorem register_token_count_counterexample :
    (OnRingInstanceRegister (fun n _ => List.range n) ⟨[("am-1", ⟨List.range 129⟩)]⟩ true "am-1"
        ⟨List.range 129⟩).2 = List.range 129 ∧
    (List.range 129).length = 129 ∧
    (129 : Nat) ≠ RingNumTokens := by
  refine ⟨?_, by simp, by decide⟩
  simp [OnRingInstanceRegister, RingNumTokens, Desc.tokensFor]

/-- C9 amended: whenever the generator honors its contract (it returns the
requested number of tokens), the token list returned by
`OnRingInstanceRegister` has length `max RingNumTokens (inherited count)` —
in particular exactly `RingNumTokens` whenever the inherited tokens (none for
a new instance) do not exceed `RingNumTokens`. -/
theorem register_token_count (gen : Nat → List Nat → List Nat) (ringDesc : Desc)
    (instanceExists : Bool) (instanceID : String) (instanceDesc : InstanceDesc)
    (hgen : ∀ n taken, (gen n taken).length = n) :
    (OnRingInstanceRegister gen ringDesc instanceExists instanceID instanceDesc).2.length =
      max RingNumTokens (if instanceExists then instanceDesc.tokens.length else 0) := by
  cases instanceExists <;>
    simp only [OnRingInstanceRegister, List.length_append, hgen, RingNumTokens,
      if_true, if_false, Bool.false_eq_true, List.length_nil] <;>
    omega

/-- C9 witness: the amended token-count claim for a fresh instance on an
empty ring, with a contract-honoring generator: 128 tokens are returned. -/
theorem register_token_count_witness :
    (OnRingInstanceRegister (fun n _ => List.range n) ⟨[]⟩ false "am-1" ⟨[]⟩).2.length =
      max RingNumTokens (if (false : Bool) then (⟨[]⟩ : InstanceDesc).tokens.length else 0) :=
  register_token_count (fun n _ => List.range n) ⟨[]⟩ false "am-1" ⟨[]⟩
    (fun n _ => List.length_range n)

/-- C10: on re-registration with prior tokens `[t1, t2]` and `RingNumTokens =
128`, whenever the generator honors its contract at the requested count of
126 the hook returns 128 tokens whose first two are `t1, t2` in order, whose
remaining 126 are disjoint from the descriptor's taken set, together with the
JOINING state — and the JOINING state is returned regardless of whether the
instance existed. -/
theorem register_rejoin (gen : Nat → List Nat → List Nat) (ringDesc : Desc)
    (instanceID : String) (t1 t2 : Nat) (b : Bool) (idesc : InstanceDesc)
    (hlen : (gen 126 (ringDesc.tokensFor instanceID).2).length = 126)
    (hdisj : ∀ x ∈ gen 126 (ringDesc.tokensFor instanceID).2,
      x ∉ (ringDesc.tokensFor instanceID).2) :
    (OnRingInstanceRegister gen ringDesc true instanceID ⟨[t1, t2]⟩).2.length = RingNumTokens ∧
    (OnRingInstanceRegister gen ringDesc true instanceID ⟨[t1, t2]⟩).2.take 2 = [t1, t2] ∧
    (∀ x ∈ (OnRingInstanceRegister gen ringDesc true instanceID ⟨[t1, t2]⟩).2.drop 2,
      x ∉ (ringDesc.tokensFor instanceID).2) ∧
    (OnRingInstanceRegister gen ringDesc true instanceID ⟨[t1, t2]⟩).1 = InstanceState.JOINING ∧
    (OnRingInstanceRegister gen ringDesc b instanceID idesc).1 = InstanceState.JOINING := by
  refine ⟨?_, rfl, fun x hx => hdisj x hx, rfl, rfl⟩
  have h2 : (OnRingInstanceRegister gen ringDesc true instanceID ⟨[t1, t2]⟩).2 =
      [t1, t2] ++ gen 126 (ringDesc.tokensFor instanceID).2 := rfl
  rw [h2, List.length_append, hlen]
  rfl

/-- C10 witness: the rejoin claim at prior tokens 5 and 9, a foreign instance
owning 100 and 200, and a generator returning 126 fresh tokens ≥ 1000. -/
theorem register_rejoin_witness :
    (OnRingInstanceRegister genW descW true "am-1" ⟨[5, 9]⟩).2.length = RingNumTokens ∧
    (OnRingInstanceRegister genW descW true "am-1" ⟨[5, 9]⟩).2.take 2 = [5, 9] ∧
    (∀ x ∈ (OnRingInstanceRegister genW descW true "am-1" ⟨[5, 9]⟩).2.drop 2,
      x ∉ (descW.tokensFor "am-1").2) ∧
    (OnRingInstanceRegister genW descW true "am-1" ⟨[5, 9]⟩).1 = InstanceState.JOINING ∧
    (OnRingInstanceRegister genW descW false "am-1" ⟨[]⟩).1 = InstanceState.JOINING :=
  register_rejoin genW descW "am-1" 5 9 false ⟨[]⟩ (by simp [genW])
    (by
      intro x hx
      simp [genW, descW, Desc.tokensFor] at hx ⊢
      obtain ⟨i, hi, rfl⟩ := hx
      omega)

end Mimir
